import Mathlib

/-!
Shallow embedding of the offpele topology and solvent modules
(`offPELE/topology/molecule.py` and `offPELE/solvent/solvent.py`).

Numeric parameter values handed out by the parameter provider are modelled
as `Option ℚ`: `none` stands for the Python value `None`, `some q` for a
numeric quantity with magnitude `q`.  Python truthiness of such a value
(`None` is falsy, a number is falsy exactly when it equals zero) is the
`truthy` predicate below.  Python dictionaries are modelled as association
lists that keep insertion order, which is the iteration order of `dict` in
Python; lookup returns the first binding.
-/

namespace OffPELE

/-- A parameter value as produced by the parameter provider: `none` is the
Python `None`, `some q` a numeric quantity. -/
abbrev Val := Option ℚ

/-- A quadruple of atom indices keying a torsion entry. -/
abbrev Idx4 := Nat × Nat × Nat × Nat

/-- One per-periodicity-term parameter dictionary, keyed by atom-index
quadruples, in insertion order. -/
abbrev TorsionTable := List (Idx4 × Val)

/-- Python truthiness of a parameter value: `None` is falsy and a numeric
value is truthy exactly when it is nonzero. -/
def truthy : Val → Bool
  | none => false
  | some q => q != 0

/-- The keys of a parameter dictionary, in insertion order
(`dict.keys()`). -/
def tableKeys (t : TorsionTable) : List Idx4 := t.map Prod.fst

/-- Keyed lookup in a parameter dictionary (`d[index]`); a missing key
yields `none`, which is only ever relied upon after key sets have been
checked equal. -/
def tableGet (t : TorsionTable) (k : Idx4) : Val := (List.lookup k t).getD none

/-- Python `d1.keys() == d2.keys()`: equality of key views as sets. -/
def sameKeys (a b : TorsionTable) : Bool :=
  (tableKeys a).all (fun k => (tableKeys b).contains k) &&
  (tableKeys b).all (fun k => (tableKeys a).contains k)

/-- Whether a torsion record is a proper or an improper torsion
(`OFFProper` versus `OFFImproper`). -/
inductive TorsionClass
  | proper
  | improper
deriving DecidableEq, Repr

/-- A torsion record as built by `Molecule._build_propers` and
`Molecule._build_impropers` (the `OFFProper` / `OFFImproper` object). -/
structure OFFTorsion where
  tclass : TorsionClass
  atom1_idx : Nat
  atom2_idx : Nat
  atom3_idx : Nat
  atom4_idx : Nat
  periodicity : Val
  phase : Val
  k : Val
  idivf : Val
deriving DecidableEq, Repr

/-- The atom-index quadruple of a torsion record. -/
def OFFTorsion.quad (r : OFFTorsion) : Idx4 :=
  (r.atom1_idx, r.atom2_idx, r.atom3_idx, r.atom4_idx)

/-- The inner loop of `Molecule._build_propers` for one periodicity term:
iterate over the keys of the periodicity dictionary and emit an `OFFProper`
record exactly when periodicity, phase, force constant and divisor are all
truthy. -/
def buildTermRecordsP (pt ph pk pi : TorsionTable) : List OFFTorsion :=
  (tableKeys pt).filterMap (fun idx =>
    if truthy (tableGet pt idx) && truthy (tableGet ph idx) &&
        truthy (tableGet pk idx) && truthy (tableGet pi idx) then
      some ⟨TorsionClass.proper, idx.1, idx.2.1, idx.2.2.1, idx.2.2.2,
            tableGet pt idx, tableGet ph idx, tableGet pk idx, tableGet pi idx⟩
    else none)

/-- The inner loop of `Molecule._build_impropers` for one periodicity term,
identical to the proper case except that it emits `OFFImproper` records. -/
def buildTermRecordsI (pt ph pk pi : TorsionTable) : List OFFTorsion :=
  (tableKeys pt).filterMap (fun idx =>
    if truthy (tableGet pt idx) && truthy (tableGet ph idx) &&
        truthy (tableGet pk idx) && truthy (tableGet pi idx) then
      some ⟨TorsionClass.improper, idx.1, idx.2.1, idx.2.2.1, idx.2.2.2,
            tableGet pt idx, tableGet ph idx, tableGet pk idx, tableGet pi idx⟩
    else none)

/-- The error raised by the defensive assertions of the torsion builders. -/
inductive BuildError
  | inconsistentLengths
  | inconsistentKeys
deriving DecidableEq, Repr

/-- The outcome of a torsion-building pass: the records appended to the
molecule before any assertion fired, and the assertion error, if one
fired. -/
structure BuildResult where
  records : List OFFTorsion
  error : Option BuildError
deriving DecidableEq, Repr

/-- One zipped quadruple of per-term parameter dictionaries
(periodicities, phases, force constants, divisors). -/
abbrev Term4 := TorsionTable × TorsionTable × TorsionTable × TorsionTable

/-- The per-term key-set assertion of the torsion builders:
`period_by_index.keys() == phase_by_index.keys()` and likewise for the
force-constant and divisor dictionaries. -/
def termConsistent : Term4 → Bool
  | (pt, ph, pk, pi) => sameKeys pt ph && sameKeys pt pk && sameKeys pt pi

/-- Python `zip` over the four parameter lists (truncating at the shortest,
as `zip` does). -/
def zip4 : List TorsionTable → List TorsionTable → List TorsionTable →
    List TorsionTable → List Term4
  | a :: la, b :: lb, c :: lc, d :: ld => (a, b, c, d) :: zip4 la lb lc ld
  | _, _, _, _ => []

/-- The main loop of `Molecule._build_propers`: process the zipped term
dictionaries in order; at the first term whose key sets disagree the
assertion fires and the pass stops, keeping the records already emitted. -/
def buildLoopP : List Term4 → BuildResult
  | [] => ⟨[], none⟩
  | (pt, ph, pk, pi) :: rest =>
    if termConsistent (pt, ph, pk, pi) then
      let r := buildLoopP rest
      ⟨buildTermRecordsP pt ph pk pi ++ r.records, r.error⟩
    else
      ⟨[], some BuildError.inconsistentKeys⟩

/-- The main loop of `Molecule._build_impropers`, identical to the proper
case except for the record class. -/
def buildLoopI : List Term4 → BuildResult
  | [] => ⟨[], none⟩
  | (pt, ph, pk, pi) :: rest =>
    if termConsistent (pt, ph, pk, pi) then
      let r := buildLoopI rest
      ⟨buildTermRecordsI pt ph pk pi ++ r.records, r.error⟩
    else
      ⟨[], some BuildError.inconsistentKeys⟩

/-- The default divisor tables built when `len(idivfs) == 0`: one
dictionary per periodicity dictionary, with the same keys in the same
order, every value the integer `1`. -/
def defaultIdivfTables (periodicities : List TorsionTable) : List TorsionTable :=
  periodicities.map (fun t => t.map (fun kv => (kv.1, some 1)))

/-- The divisor tables actually used by a torsion builder: the provider
tables, or the defaulted ones when the provider list is empty. -/
def resolveIdivfs (periodicities idivfs : List TorsionTable) : List TorsionTable :=
  if idivfs.length = 0 then defaultIdivfTables periodicities else idivfs

/-- Embeds `Molecule._build_propers`: default the divisor tables if absent, assert
equal lengths of the four lists, then run the main loop. -/
def buildPropersRun (periodicities phases ks idivfs : List TorsionTable) :
    BuildResult :=
  if periodicities.length = phases.length ∧ periodicities.length = ks.length ∧
      periodicities.length = (resolveIdivfs periodicities idivfs).length then
    buildLoopP (zip4 periodicities phases ks (resolveIdivfs periodicities idivfs))
  else
    ⟨[], some BuildError.inconsistentLengths⟩

/-- Embeds `Molecule._build_impropers`: identical to `buildPropersRun` except that
the loop emits improper records. -/
def buildImpropersRun (periodicities phases ks idivfs : List TorsionTable) :
    BuildResult :=
  if periodicities.length = phases.length ∧ periodicities.length = ks.length ∧
      periodicities.length = (resolveIdivfs periodicities idivfs).length then
    buildLoopI (zip4 periodicities phases ks (resolveIdivfs periodicities idivfs))
  else
    ⟨[], some BuildError.inconsistentLengths⟩

/-- The records of one zipped term quadruple, proper class. -/
def recsOfTermP (t : Term4) : List OFFTorsion :=
  buildTermRecordsP t.1 t.2.1 t.2.2.1 t.2.2.2

/-- The records of one zipped term quadruple, improper class. -/
def recsOfTermI (t : Term4) : List OFFTorsion :=
  buildTermRecordsI t.1 t.2.1 t.2.2.1 t.2.2.2

/-- The `Atom` record of `offPELE.topology.molecule`.  Nullable fields are
`Option`-valued: `none` is the Python `None`, the explicit unassigned
sentinel. -/
structure Atom where
  index : Nat
  core : Option Bool
  OPLS_type : Option ℚ
  PDB_name : String
  unknown : Option ℚ
  x : ℚ
  y : ℚ
  z : ℚ
  sigma : Val
  epsilon : Val
  charge : ℚ
  born_radius : Option ℚ
  SASA_radius : Option ℚ
  nonpolar_gamma : Option ℚ
  nonpolar_alpha : Option ℚ
  parent : Option Nat
deriving DecidableEq, Repr

/-- Embeds `Atom.set_as_core`: sets the core flag to `True`. -/
def Atom.set_as_core (a : Atom) : Atom := { a with core := some true }

/-- Embeds `Atom.set_as_branch`: sets the core flag to `False`. -/
def Atom.set_as_branch (a : Atom) : Atom := { a with core := some false }

/-- Embeds `Atom.set_parent`: sets the parent reference (an atom reference,
modelled by the referenced atom index). -/
def Atom.set_parent (a : Atom) (p : Option Nat) : Atom := { a with parent := p }

/-- The inputs consumed by `Molecule._build_atoms`: the key set of the
vdW parameter dictionary, the PDB atom names and coordinates (positional),
the sigma / rmin-half-derived-sigma / epsilon dictionaries and the partial
charges array. -/
structure AtomInputs where
  vdWKeys : List Nat
  pdbNames : List String
  coords : List (ℚ × ℚ × ℚ)
  sigmas : List (Nat × Val)
  sigmasFromRminHalves : List (Nat × Val)
  epsilons : List (Nat × Val)
  charges : List ℚ
deriving Repr

/-- PELE needs underscores instead of whitespaces:
`name.replace(' ', '_')` applied to a PDB atom name. -/
def underscoreName (s : String) : String :=
  String.mk (s.data.map (fun c => if c = ' ' then '_' else c))

/-- The sigma dictionary actually used by `Molecule._build_atoms`: the
directly reported sigmas, replaced wholesale by the rmin-half-derived ones
exactly when every directly reported sigma is `None`. -/
def selectSigmas (inp : AtomInputs) : List (Nat × Val) :=
  if inp.sigmas.all (fun kv => kv.2.isNone) then inp.sigmasFromRminHalves
  else inp.sigmas

/-- The SASA-radius dictionary `{i: j / 2.0 for i, j in sigmas.items()}`:
halving a `None` sigma raises a TypeError in Python. -/
def sasaTableOf : List (Nat × Val) → Except String (List (Nat × ℚ))
  | [] => Except.ok []
  | (i, v) :: rest =>
    match v with
    | some s =>
      match sasaTableOf rest with
      | Except.ok st => Except.ok ((i, s / 2) :: st)
      | Except.error e => Except.error e
    | none => Except.error "unsupported operand type"

/-- The body of the per-index loop of `Molecule._build_atoms`: look up the
name, coordinates, sigma, epsilon, charge and SASA radius of one atom index
and build its `Atom` record.  The OPLS type, unknown field, Born radius and
nonpolar gamma/alpha dictionaries map every key to `None`, so those fields
are the unassigned sentinel. -/
def buildOneAtom (inp : AtomInputs) (usedSigmas : List (Nat × Val))
    (sasaT : List (Nat × ℚ)) (i : Nat) : Except String Atom :=
  match inp.pdbNames.get? i with
  | none => Except.error "KeyError"
  | some rawName =>
    match inp.coords.get? i with
    | none => Except.error "KeyError"
    | some c =>
      match List.lookup i usedSigmas with
      | none => Except.error "KeyError"
      | some sigma =>
        match List.lookup i inp.epsilons with
        | none => Except.error "KeyError"
        | some eps =>
          match inp.charges.get? i with
          | none => Except.error "KeyError"
          | some charge =>
            match List.lookup i sasaT with
            | none => Except.error "KeyError"
            | some sasa =>
              Except.ok
                { index := i, core := none, OPLS_type := none,
                  PDB_name := underscoreName rawName, unknown := none,
                  x := c.1, y := c.2.1, z := c.2.2,
                  sigma := sigma, epsilon := eps, charge := charge,
                  born_radius := none, SASA_radius := some sasa,
                  nonpolar_gamma := none, nonpolar_alpha := none,
                  parent := none }

/-- The per-index loop of `Molecule._build_atoms`, appending one atom per
vdW key. -/
def buildAtomsLoop (inp : AtomInputs) (usedSigmas : List (Nat × Val))
    (sasaT : List (Nat × ℚ)) : List Nat → Except String (List Atom)
  | [] => Except.ok []
  | i :: rest =>
    match buildOneAtom inp usedSigmas sasaT i with
    | Except.error e => Except.error e
    | Except.ok a =>
      match buildAtomsLoop inp usedSigmas sasaT rest with
      | Except.error e => Except.error e
      | Except.ok l => Except.ok (a :: l)

/-- Embeds `Molecule._build_atoms`: select the sigma dictionary (with the global
rmin-half fallback), derive the SASA radii as half the selected sigmas,
then build one `Atom` record per vdW parameter key. -/
def buildAtoms (inp : AtomInputs) : Except String (List Atom) :=
  match sasaTableOf (selectSigmas inp) with
  | Except.error e => Except.error e
  | Except.ok sasaT => buildAtomsLoop inp (selectSigmas inp) sasaT inp.vdWKeys

/-- Changing the class tag of a torsion record from proper to improper,
leaving every other field unchanged. -/
def retagImproper (r : OFFTorsion) : OFFTorsion :=
  { r with tclass := TorsionClass.improper }

/-- A sample torsion key used to instantiate the torsion theorems. -/
def exIdx : Idx4 := (0, 1, 2, 3)

/-- A sample one-term periodicity dictionary. -/
def exPeriods : TorsionTable := [(exIdx, some 2)]

/-- A sample one-term phase dictionary. -/
def exPhases : TorsionTable := [(exIdx, some 1)]

/-- A sample one-term force-constant dictionary. -/
def exKs : TorsionTable := [(exIdx, some 3)]

/-- A sample one-term divisor dictionary. -/
def exIdivfs : TorsionTable := [(exIdx, some 1)]

/-- A sample force-constant dictionary whose only entry is zero, hence
falsy. -/
def exKsZero : TorsionTable := [(exIdx, some 0)]

/-- A sample atom-construction input on which `Molecule._build_atoms`
succeeds. -/
def okAtomInputs : AtomInputs :=
  { vdWKeys := [0], pdbNames := ["C1"], coords := [(0, 0, 0)],
    sigmas := [(0, some 2)], sigmasFromRminHalves := [(0, some 2)],
    epsilons := [(0, some 1)], charges := [0] }

/-- The atom record that `Molecule._build_atoms` builds from
`okAtomInputs`. -/
def okAtomExpected : Atom :=
  { index := 0, core := none, OPLS_type := none, PDB_name := "C1",
    unknown := none, x := 0, y := 0, z := 0, sigma := some 2,
    epsilon := some 1, charge := 0, born_radius := none,
    SASA_radius := some (2 / 2), nonpolar_gamma := none,
    nonpolar_alpha := none, parent := none }

/-- An atom-construction input whose sigma dictionary reports a sigma for
atom 0 but `None` for atom 1: only some per-atom sigmas are missing. -/
def mixedAtomInputs : AtomInputs :=
  { vdWKeys := [0, 1], pdbNames := ["C1", "H1"],
    coords := [(0, 0, 0), (1, 0, 0)],
    sigmas := [(0, some 3), (1, none)],
    sigmasFromRminHalves := [(0, some 3), (1, some 5)],
    epsilons := [(0, some 1), (1, some 1)], charges := [0, 0] }

/-- The payload of a rotamer library; its structure is irrelevant to the
parameterization guard, so it is kept abstract as a list of branches. -/
abbrev RotamerLibrary := List (List ℚ)

/-- The state of a `Molecule` object insofar as the parameterization guard
observes it: whether the underlying OpenForceField molecule is set, the PDB
atom names of the RDKit molecule, and the rotamer-library and graph
slots. -/
structure MoleculeState where
  name : String
  off_molecule : Option Unit
  rdkit_names : List String
  rotamer_library : Option RotamerLibrary
  graph : Option Unit

/-- Embeds `Molecule._assert_parameterized`: raises
`Exception('Molecule not parameterized')` when the OpenForceField molecule
is unset. -/
def MoleculeState.assert_parameterized (m : MoleculeState) :
    Except String Unit :=
  if m.off_molecule.isSome then Except.ok ()
  else Except.error "Molecule not parameterized"

/-- Embeds `Molecule.build_rotamer_library`: assert the molecule is parameterized,
then build the molecular graph and the rotamer library.  Returns the
post-state and the raised error, if any.  The successful branch builds a
`MolecularGraph` from `rotamer.py`, which is not part of the sources under
review; it is abstracted by the `mkLib` argument. -/
def build_rotamer_library (mkLib : MoleculeState → ℚ → RotamerLibrary)
    (m : MoleculeState) (resolution : ℚ) : MoleculeState × Option String :=
  match m.assert_parameterized with
  | Except.error e => (m, some e)
  | Except.ok _ =>
    ({ m with graph := some (),
              rotamer_library := some (mkLib m resolution) }, none)

/-- Embeds `Molecule.get_pdb_atom_names`: assert the molecule is parameterized,
then collect the PDB atom names of the RDKit molecule. -/
def get_pdb_atom_names (m : MoleculeState) : Except String (List String) :=
  match m.assert_parameterized with
  | Except.error e => Except.error e
  | Except.ok _ => Except.ok m.rdkit_names

/-- A sample unparameterized molecule state. -/
def unparamMolecule : MoleculeState :=
  { name := "UNL", off_molecule := none, rdkit_names := ["C1"],
    rotamer_library := none, graph := none }

/-- The `GBSA` parameter handler pulled from a force-field file
(`get_parameter_handler_from_forcefield`). -/
structure GBSAHandler where
  solvent_dielectric : ℚ
  solute_dielectric : ℚ
  surface_area_penalty : ℚ
  solvent_radius : ℚ

/-- The per-molecule GBSA parameters pulled from a force-field file
(`get_parameters_from_forcefield` followed by `get_GBSA_radii` and
`get_GBSA_scales`). -/
structure GBSAParameters where
  radii : List ℚ
  scales : List ℚ

/-- The OpenForceField toolkit wrapper as the solvent wrappers use it,
treated as an opaque lookup keyed by the force-field file path and a
molecule handle. -/
structure OFFToolkit where
  handlerOf : String → GBSAHandler
  parametersOf : String → Nat → GBSAParameters

/-- The observable state of a `_SolventWrapper` after
`_initialize_from_molecule`. -/
structure SolventWrapperData where
  name : String
  radii : List ℚ
  scales : List ℚ
  solvent_dielectric : ℚ
  solute_dielectric : ℚ
  surface_area_penalty : ℚ
  solvent_radius : ℚ

/-- Embeds `_SolventWrapper._initialize_from_molecule`: pull the GBSA handler
constants and the per-molecule radii and scales from the wrapper's
force-field file. -/
def initSolventFromMolecule (tk : OFFToolkit) (ff_file : String)
    (nm : String) (mol : Nat) : SolventWrapperData :=
  { name := nm,
    radii := (tk.parametersOf ff_file mol).radii,
    scales := (tk.parametersOf ff_file mol).scales,
    solvent_dielectric := (tk.handlerOf ff_file).solvent_dielectric,
    solute_dielectric := (tk.handlerOf ff_file).solute_dielectric,
    surface_area_penalty := (tk.handlerOf ff_file).surface_area_penalty,
    solvent_radius := (tk.handlerOf ff_file).solvent_radius }

/-- The force-field data file of the `OBC1` wrapper
(`get_data_file_path` applied to its class attribute, the path-resolving
helper kept abstract). -/
def OBC1_ff_file (get_data_file_path : String → String) : String :=
  get_data_file_path "forcefields/GBSA_OBC1-1.0.offxml"

/-- The force-field data file of the `OBC2` wrapper: the same relative
path as `OBC1`. -/
def OBC2_ff_file (get_data_file_path : String → String) : String :=
  get_data_file_path "forcefields/GBSA_OBC1-1.0.offxml"

/-- Constructing an `OBC1` wrapper: emits the not-implemented warning,
then initializes from the molecule.  Result: the wrapper state and the
warnings emitted. -/
def mkOBC1 (get_data_file_path : String → String) (tk : OFFToolkit)
    (mol : Nat) : SolventWrapperData × List String :=
  (initSolventFromMolecule tk (OBC1_ff_file get_data_file_path) "OBC1" mol,
   ["OBC1 is not implemented in PELE"])

/-- Constructing an `OBC2` wrapper: initializes from the molecule with no
warning. -/
def mkOBC2 (get_data_file_path : String → String) (tk : OFFToolkit)
    (mol : Nat) : SolventWrapperData × List String :=
  (initSolventFromMolecule tk (OBC2_ff_file get_data_file_path) "OBC2" mol,
   [])

theorem mem_buildTermRecordsP (pt ph pk pi : TorsionTable) (idx : Idx4)
    (hmem : idx ∈ tableKeys pt) :
    (∃ r ∈ buildTermRecordsP pt ph pk pi, r.quad = idx) ↔
      (truthy (tableGet pt idx) ∧ truthy (tableGet ph idx) ∧
       truthy (tableGet pk idx) ∧ truthy (tableGet pi idx)) := by
  unfold buildTermRecordsP
  constructor
  · rintro ⟨r, hr, hq⟩
    rw [List.mem_filterMap] at hr
    obtain ⟨j, _, hfj⟩ := hr
    by_cases hc : (truthy (tableGet pt j) && truthy (tableGet ph j) &&
        truthy (tableGet pk j) && truthy (tableGet pi j)) = true
    · rw [if_pos hc] at hfj
      injection hfj with h
      have hquad : j = idx := by
        rw [← hq, ← h]
        rfl
      subst hquad
      simpa [Bool.and_assoc] using hc
    · rw [if_neg hc] at hfj
      exact absurd hfj (by simp)
  · rintro ⟨h1, h2, h3, h4⟩
    refine ⟨⟨TorsionClass.proper, idx.1, idx.2.1, idx.2.2.1, idx.2.2.2,
      tableGet pt idx, tableGet ph idx, tableGet pk idx, tableGet pi idx⟩,
      ?_, rfl⟩
    rw [List.mem_filterMap]
    exact ⟨idx, hmem, by rw [if_pos (by simp [h1, h2, h3, h4])]⟩

theorem buildTermRecordsI_eq_retag (pt ph pk pi : TorsionTable) :
    buildTermRecordsI pt ph pk pi =
      (buildTermRecordsP pt ph pk pi).map retagImproper := by
  unfold buildTermRecordsI buildTermRecordsP
  rw [List.map_filterMap]
  refine List.filterMap_congr ?_
  intro j _
  by_cases hc : (truthy (tableGet pt j) && truthy (tableGet ph j) &&
      truthy (tableGet pk j) && truthy (tableGet pi j)) = true
  · rw [if_pos hc, if_pos hc]
    rfl
  · rw [if_neg hc, if_neg hc]
    rfl

theorem mem_buildTermRecordsI (pt ph pk pi : TorsionTable) (idx : Idx4)
    (hmem : idx ∈ tableKeys pt) :
    (∃ r ∈ buildTermRecordsI pt ph pk pi, r.quad = idx) ↔
      (truthy (tableGet pt idx) ∧ truthy (tableGet ph idx) ∧
       truthy (tableGet pk idx) ∧ truthy (tableGet pi idx)) := by
  rw [← mem_buildTermRecordsP pt ph pk pi idx hmem,
    buildTermRecordsI_eq_retag]
  constructor
  · rintro ⟨r, hr, hq⟩
    rw [List.mem_map] at hr
    obtain ⟨s, hs, hsr⟩ := hr
    refine ⟨s, hs, ?_⟩
    rw [← hq, ← hsr]
    rfl
  · rintro ⟨r, hr, hq⟩
    exact ⟨retagImproper r, List.mem_map_of_mem retagImproper hr, hq⟩

theorem buildLoopP_eq (terms : List Term4) :
    buildLoopP terms =
      ⟨(terms.takeWhile termConsistent).flatMap recsOfTermP,
       if terms.all termConsistent then none
       else some BuildError.inconsistentKeys⟩ := by
  induction terms with
  | nil => rfl
  | cons t rest ih =>
    obtain ⟨pt, ph, pk, pi⟩ := t
    by_cases hc : termConsistent (pt, ph, pk, pi) = true
    · simp [buildLoopP, hc, ih, recsOfTermP]
      rw [hc, Bool.true_and]
    · simp [buildLoopP, hc]

theorem buildLoopI_eq_retag (terms : List Term4) :
    buildLoopI terms =
      ⟨((buildLoopP terms).records).map retagImproper,
       (buildLoopP terms).error⟩ := by
  induction terms with
  | nil => rfl
  | cons t rest ih =>
    obtain ⟨pt, ph, pk, pi⟩ := t
    by_cases hc : termConsistent (pt, ph, pk, pi) = true
    · simp [buildLoopP, buildLoopI, hc, ih, buildTermRecordsI_eq_retag]
    · simp [buildLoopP, buildLoopI, hc]

theorem mem_records_buildLoopP (terms : List Term4) (r : OFFTorsion)
    (h : r ∈ (buildLoopP terms).records) : ∃ t ∈ terms, r ∈ recsOfTermP t := by
  induction terms with
  | nil => simp [buildLoopP] at h
  | cons t rest ih =>
    obtain ⟨pt, ph, pk, pi⟩ := t
    by_cases hc : termConsistent (pt, ph, pk, pi) = true
    · rw [buildLoopP, if_pos hc] at h
      rcases List.mem_append.mp h with h | h
      · exact ⟨(pt, ph, pk, pi), List.mem_cons_self _ _, h⟩
      · obtain ⟨t, ht, hr⟩ := ih h
        exact ⟨t, List.mem_cons_of_mem _ ht, hr⟩
    · rw [buildLoopP, if_neg hc] at h
      simp at h

theorem idivf_of_mem_buildTermRecordsP (pt ph pk pi : TorsionTable)
    (r : OFFTorsion) (h : r ∈ buildTermRecordsP pt ph pk pi) :
    ∃ j ∈ tableKeys pt, r.idivf = tableGet pi j := by
  unfold buildTermRecordsP at h
  rw [List.mem_filterMap] at h
  obtain ⟨j, hj, hfj⟩ := h
  by_cases hc : (truthy (tableGet pt j) && truthy (tableGet ph j) &&
      truthy (tableGet pk j) && truthy (tableGet pi j)) = true
  · rw [if_pos hc] at hfj
    injection hfj with hr
    exact ⟨j, hj, by rw [← hr]⟩
  · rw [if_neg hc] at hfj
    exact absurd hfj (by simp)

theorem zip4_map_fourth {f : TorsionTable → TorsionTable} :
    ∀ {la lb lc : List TorsionTable} {t : Term4},
      t ∈ zip4 la lb lc (la.map f) → t.2.2.2 = f t.1 := by
  intro la
  induction la with
  | nil => intro lb lc t h; simp [zip4] at h
  | cons a la ih =>
    intro lb lc t h
    cases lb with
    | nil => simp [zip4] at h
    | cons b lb =>
      cases lc with
      | nil => simp [zip4] at h
      | cons c lc =>
        rw [List.map_cons, zip4] at h
        rcases List.mem_cons.mp h with h | h
        · subst h; rfl
        · exact ih h

theorem tableGet_defaultTable (t : TorsionTable) (idx : Idx4)
    (h : idx ∈ tableKeys t) :
    tableGet (t.map (fun kv => (kv.1, some 1))) idx = some 1 := by
  induction t with
  | nil => simp [tableKeys] at h
  | cons kv t ih =>
    by_cases he : idx = kv.1
    · subst he
      simp [tableGet, List.lookup]
    · have hmem : idx ∈ tableKeys t := by
        rcases List.mem_cons.mp h with h | h
        · exact absurd h he
        · exact h
      have : (idx == kv.1) = false := by
        simp [he]
      simp only [List.map_cons, tableGet, List.lookup, this] at ih ⊢
      exact ih hmem

theorem buildLoopI_eq (terms : List Term4) :
    buildLoopI terms =
      ⟨(terms.takeWhile termConsistent).flatMap recsOfTermI,
       if terms.all termConsistent then none
       else some BuildError.inconsistentKeys⟩ := by
  induction terms with
  | nil => rfl
  | cons t rest ih =>
    obtain ⟨pt, ph, pk, pi⟩ := t
    by_cases hc : termConsistent (pt, ph, pk, pi) = true
    · simp [buildLoopI, hc, ih, recsOfTermI]
      rw [hc, Bool.true_and]
    · simp [buildLoopI, hc]

theorem buildLoopP_error_iff (terms : List Term4) :
    ((buildLoopP terms).error.isSome = true) ↔
      ∃ t ∈ terms, termConsistent t = false := by
  rw [buildLoopP_eq]
  by_cases hall : terms.all termConsistent = true
  · rw [if_pos hall]
    rw [List.all_eq_true] at hall
    simp only [Option.isSome_none]
    constructor
    · intro h
      exact absurd h (by simp)
    · rintro ⟨t, ht, hc⟩
      rw [hall t ht] at hc
      exact absurd hc (by simp)
  · rw [if_neg hall]
    simp only [Option.isSome_some, true_iff]
    rw [List.all_eq_true] at hall
    push_neg at hall
    obtain ⟨t, ht, hc⟩ := hall
    refine ⟨t, ht, ?_⟩
    cases h2 : termConsistent t
    · rfl
    · exact absurd h2 hc

theorem buildLoopI_error_iff (terms : List Term4) :
    ((buildLoopI terms).error.isSome = true) ↔
      ∃ t ∈ terms, termConsistent t = false := by
  rw [buildLoopI_eq_retag]
  exact buildLoopP_error_iff terms

theorem buildImpropersRun_eq_retag (ps phs ks idv : List TorsionTable) :
    buildImpropersRun ps phs ks idv =
      ⟨((buildPropersRun ps phs ks idv).records).map retagImproper,
       (buildPropersRun ps phs ks idv).error⟩ := by
  unfold buildImpropersRun buildPropersRun
  by_cases h : ps.length = phs.length ∧ ps.length = ks.length ∧
      ps.length = (resolveIdivfs ps idv).length
  · rw [if_pos h, if_pos h, buildLoopI_eq_retag]
  · rw [if_neg h, if_neg h]
    rfl

theorem tclass_of_mem_buildTermRecordsP (pt ph pk pi : TorsionTable)
    (r : OFFTorsion) (h : r ∈ buildTermRecordsP pt ph pk pi) :
    r.tclass = TorsionClass.proper := by
  unfold buildTermRecordsP at h
  rw [List.mem_filterMap] at h
  obtain ⟨j, _, hfj⟩ := h
  by_cases hc : (truthy (tableGet pt j) && truthy (tableGet ph j) &&
      truthy (tableGet pk j) && truthy (tableGet pi j)) = true
  · rw [if_pos hc] at hfj
    injection hfj with hr
    rw [← hr]
  · rw [if_neg hc] at hfj
    exact absurd hfj (by simp)

theorem resolveIdivfs_nil (ps : List TorsionTable) :
    resolveIdivfs ps [] = defaultIdivfTables ps := rfl

theorem idivf_one_of_mem_propersRun (ps phs ks : List TorsionTable)
    (r : OFFTorsion) (h : r ∈ (buildPropersRun ps phs ks []).records) :
    r.idivf = some 1 := by
  unfold buildPropersRun at h
  by_cases hlen : ps.length = phs.length ∧ ps.length = ks.length ∧
      ps.length = (resolveIdivfs ps []).length
  · rw [if_pos hlen] at h
    obtain ⟨t, ht, hrt⟩ := mem_records_buildLoopP _ r h
    rw [resolveIdivfs_nil] at ht
    have hpi : t.2.2.2 = t.1.map (fun kv => (kv.1, some 1)) :=
      zip4_map_fourth ht
    obtain ⟨j, hj, hidivf⟩ :=
      idivf_of_mem_buildTermRecordsP t.1 t.2.1 t.2.2.1 t.2.2.2 r hrt
    rw [hidivf, hpi, tableGet_defaultTable t.1 j hj]
  · rw [if_neg hlen] at h
    exact absurd h (by simp)

theorem idivf_one_of_mem_impropersRun (ps phs ks : List TorsionTable)
    (r : OFFTorsion) (h : r ∈ (buildImpropersRun ps phs ks []).records) :
    r.idivf = some 1 := by
  rw [buildImpropersRun_eq_retag] at h
  rw [List.mem_map] at h
  obtain ⟨s, hs, hsr⟩ := h
  have : s.idivf = some 1 := idivf_one_of_mem_propersRun ps phs ks s hs
  rw [← hsr]
  exact this

/-- C1: for every proper and improper torsion entry processed by the
topology builder (a periodicity-term dictionary quadruple whose key sets
agree, as the builder asserts before the inner loop), a torsion record is
emitted for an atom quadruple and periodicity term if and only if all four
of periodicity, phase, force constant and divisor are truthy for that
entry; if any one of the four is falsy (a `None`, or a number equal to 0,
in particular a force constant equal to 0) the quadruple is silently
dropped and no record is emitted. -/
theorem torsion_record_emitted_iff_all_truthy
    (pt ph pk pi : TorsionTable) (idx : Idx4) (hmem : idx ∈ tableKeys pt)
    (hph : sameKeys pt ph = true) (hpk : sameKeys pt pk = true)
    (hpi : sameKeys pt pi = true) :
    ((∃ r ∈ buildTermRecordsP pt ph pk pi, r.quad = idx) ↔
      (truthy (tableGet pt idx) ∧ truthy (tableGet ph idx) ∧
       truthy (tableGet pk idx) ∧ truthy (tableGet pi idx))) ∧
    ((∃ r ∈ buildTermRecordsI pt ph pk pi, r.quad = idx) ↔
      (truthy (tableGet pt idx) ∧ truthy (tableGet ph idx) ∧
       truthy (tableGet pk idx) ∧ truthy (tableGet pi idx))) :=
  ⟨mem_buildTermRecordsP pt ph pk pi idx hmem,
   mem_buildTermRecordsI pt ph pk pi idx hmem⟩

/-- Witness for C1, at a concrete entry whose force constant is zero: the
hypotheses hold and the quadruple is dropped. -/
theorem torsion_record_emitted_iff_all_truthy_witness :
    exIdx ∈ tableKeys exPeriods ∧ sameKeys exPeriods exPhases = true ∧
    sameKeys exPeriods exKsZero = true ∧ sameKeys exPeriods exIdivfs = true ∧
    (((∃ r ∈ buildTermRecordsP exPeriods exPhases exKsZero exIdivfs,
        r.quad = exIdx) ↔
      (truthy (tableGet exPeriods exIdx) ∧ truthy (tableGet exPhases exIdx) ∧
       truthy (tableGet exKsZero exIdx) ∧ truthy (tableGet exIdivfs exIdx))) ∧
    ((∃ r ∈ buildTermRecordsI exPeriods exPhases exKsZero exIdivfs,
        r.quad = exIdx) ↔
      (truthy (tableGet exPeriods exIdx) ∧ truthy (tableGet exPhases exIdx) ∧
       truthy (tableGet exKsZero exIdx) ∧ truthy (tableGet exIdivfs exIdx)))) :=
  ⟨by decide, by decide, by decide, by decide,
   torsion_record_emitted_iff_all_truthy exPeriods exPhases exKsZero exIdivfs
     exIdx (by decide) (by decide) (by decide) (by decide)⟩

/-- C2: when the divisor list handed out by the provider is entirely empty,
every periodicity-term entry is treated as having divisor 1: every emitted
record (proper or improper) carries divisor `1`, and a record is emitted
for an entry exactly when periodicity, phase and force constant are truthy,
with no drop ever caused by the divisor. -/
theorem empty_idivf_defaults_to_one (ps phs ks : List TorsionTable)
    (r : OFFTorsion) (pt ph pk pi : TorsionTable) (idx : Idx4)
    (hterm : (pt, ph, pk, pi) ∈ zip4 ps phs ks (defaultIdivfTables ps))
    (hidx : idx ∈ tableKeys pt) :
    (r ∈ (buildPropersRun ps phs ks []).records → r.idivf = some 1) ∧
    (r ∈ (buildImpropersRun ps phs ks []).records → r.idivf = some 1) ∧
    ((∃ s ∈ buildTermRecordsP pt ph pk pi, s.quad = idx) ↔
      (truthy (tableGet pt idx) ∧ truthy (tableGet ph idx) ∧
       truthy (tableGet pk idx))) ∧
    ((∃ s ∈ buildTermRecordsI pt ph pk pi, s.quad = idx) ↔
      (truthy (tableGet pt idx) ∧ truthy (tableGet ph idx) ∧
       truthy (tableGet pk idx))) := by
  have hpi : pi = pt.map (fun kv => (kv.1, some 1)) :=
    zip4_map_fourth (f := fun t => t.map (fun kv => (kv.1, some 1))) hterm
  have h4 : truthy (tableGet pi idx) = true := by
    rw [hpi, tableGet_defaultTable pt idx hidx]
    decide
  refine ⟨idivf_one_of_mem_propersRun ps phs ks r,
    idivf_one_of_mem_impropersRun ps phs ks r, ?_, ?_⟩
  · rw [mem_buildTermRecordsP pt ph pk pi idx hidx]
    constructor
    · rintro ⟨a, b, c, _⟩
      exact ⟨a, b, c⟩
    · rintro ⟨a, b, c⟩
      exact ⟨a, b, c, h4⟩
  · rw [mem_buildTermRecordsI pt ph pk pi idx hidx]
    constructor
    · rintro ⟨a, b, c, _⟩
      exact ⟨a, b, c⟩
    · rintro ⟨a, b, c⟩
      exact ⟨a, b, c, h4⟩

/-- Witness for C2 at a concrete one-term table set with no divisor
tables: the record that gets emitted carries divisor 1. -/
theorem empty_idivf_defaults_to_one_witness :
    (exPeriods, exPhases, exKs, [(exIdx, (some 1 : Val))]) ∈
        zip4 [exPeriods] [exPhases] [exKs] (defaultIdivfTables [exPeriods]) ∧
    exIdx ∈ tableKeys exPeriods ∧
    ((⟨TorsionClass.proper, 0, 1, 2, 3, some 2, some 1, some 3, some 1⟩ :
        OFFTorsion) ∈ (buildPropersRun [exPeriods] [exPhases] [exKs] []).records →
      (⟨TorsionClass.proper, 0, 1, 2, 3, some 2, some 1, some 3, some 1⟩ :
        OFFTorsion).idivf = some 1) ∧
    ((⟨TorsionClass.proper, 0, 1, 2, 3, some 2, some 1, some 3, some 1⟩ :
        OFFTorsion) ∈ (buildImpropersRun [exPeriods] [exPhases] [exKs] []).records →
      (⟨TorsionClass.proper, 0, 1, 2, 3, some 2, some 1, some 3, some 1⟩ :
        OFFTorsion).idivf = some 1) ∧
    ((∃ s ∈ buildTermRecordsP exPeriods exPhases exKs [(exIdx, (some 1 : Val))],
        s.quad = exIdx) ↔
      (truthy (tableGet exPeriods exIdx) ∧ truthy (tableGet exPhases exIdx) ∧
       truthy (tableGet exKs exIdx))) ∧
    ((∃ s ∈ buildTermRecordsI exPeriods exPhases exKs [(exIdx, (some 1 : Val))],
        s.quad = exIdx) ↔
      (truthy (tableGet exPeriods exIdx) ∧ truthy (tableGet exPhases exIdx) ∧
       truthy (tableGet exKs exIdx))) :=
  ⟨by decide, by decide,
   empty_idivf_defaults_to_one [exPeriods] [exPhases] [exKs]
     ⟨TorsionClass.proper, 0, 1, 2, 3, some 2, some 1, some 3, some 1⟩
     exPeriods exPhases exKs [(exIdx, (some 1 : Val))] exIdx
     (by decide) (by decide)⟩

/-- C3: for both torsion classes, if the four parameter lists do not have
equal lengths the builder fails with the inconsistent-length assertion and
emits nothing; if the lengths agree, the builder fails with the
inconsistent-key assertion exactly when some zipped term quadruple has
disagreeing key sets, and the records that were emitted before the failure
all come from the consistent prefix of terms, so the offending term
dictionaries contribute no record. -/
theorem inconsistent_tables_fail (ps phs ks idv : List TorsionTable) :
    (¬(ps.length = phs.length ∧ ps.length = ks.length ∧
        ps.length = (resolveIdivfs ps idv).length) →
      buildPropersRun ps phs ks idv =
        ⟨[], some BuildError.inconsistentLengths⟩ ∧
      buildImpropersRun ps phs ks idv =
        ⟨[], some BuildError.inconsistentLengths⟩) ∧
    ((ps.length = phs.length ∧ ps.length = ks.length ∧
        ps.length = (resolveIdivfs ps idv).length) →
      (((buildPropersRun ps phs ks idv).error.isSome = true) ↔
        ∃ t ∈ zip4 ps phs ks (resolveIdivfs ps idv),
          termConsistent t = false) ∧
      (buildPropersRun ps phs ks idv).records =
        ((zip4 ps phs ks (resolveIdivfs ps idv)).takeWhile
          termConsistent).flatMap recsOfTermP ∧
      (((buildImpropersRun ps phs ks idv).error.isSome = true) ↔
        ∃ t ∈ zip4 ps phs ks (resolveIdivfs ps idv),
          termConsistent t = false) ∧
      (buildImpropersRun ps phs ks idv).records =
        ((zip4 ps phs ks (resolveIdivfs ps idv)).takeWhile
          termConsistent).flatMap recsOfTermI) := by
  constructor
  · intro h
    unfold buildPropersRun buildImpropersRun
    rw [if_neg h, if_neg h]
    exact ⟨rfl, rfl⟩
  · intro h
    unfold buildPropersRun buildImpropersRun
    rw [if_pos h, if_pos h]
    refine ⟨buildLoopP_error_iff _, ?_, buildLoopI_error_iff _, ?_⟩
    · rw [buildLoopP_eq]
    · rw [buildLoopI_eq]

/-- Witness for C3 at a concrete input whose phase dictionary has a
different key set: the proper and improper builders both stop with the
key-set assertion and, the offending term being the first, emit nothing. -/
theorem inconsistent_tables_fail_witness :
    ((1 : Nat) = 1 ∧ (1 : Nat) = 1 ∧ (1 : Nat) = 1) ∧
    ((((buildPropersRun [exPeriods] [[(((9, 9, 9, 9) : Idx4), some 1)]]
        [exKs] [exIdivfs]).error.isSome = true) ↔
      ∃ t ∈ zip4 [exPeriods] [[(((9, 9, 9, 9) : Idx4), some 1)]] [exKs]
          (resolveIdivfs [exPeriods] [exIdivfs]),
        termConsistent t = false) ∧
    (buildPropersRun [exPeriods] [[(((9, 9, 9, 9) : Idx4), some 1)]] [exKs]
        [exIdivfs]).records =
      ((zip4 [exPeriods] [[(((9, 9, 9, 9) : Idx4), some 1)]] [exKs]
        (resolveIdivfs [exPeriods] [exIdivfs])).takeWhile
          termConsistent).flatMap recsOfTermP ∧
    (((buildImpropersRun [exPeriods] [[(((9, 9, 9, 9) : Idx4), some 1)]]
        [exKs] [exIdivfs]).error.isSome = true) ↔
      ∃ t ∈ zip4 [exPeriods] [[(((9, 9, 9, 9) : Idx4), some 1)]] [exKs]
          (resolveIdivfs [exPeriods] [exIdivfs]),
        termConsistent t = false) ∧
    (buildImpropersRun [exPeriods] [[(((9, 9, 9, 9) : Idx4), some 1)]] [exKs]
        [exIdivfs]).records =
      ((zip4 [exPeriods] [[(((9, 9, 9, 9) : Idx4), some 1)]] [exKs]
        (resolveIdivfs [exPeriods] [exIdivfs])).takeWhile
          termConsistent).flatMap recsOfTermI) :=
  ⟨⟨rfl, rfl, rfl⟩,
   (inconsistent_tables_fail [exPeriods] [[(((9, 9, 9, 9) : Idx4), some 1)]]
     [exKs] [exIdivfs]).2 (by decide)⟩

/-- C7: proper and improper torsion construction follow identical logic:
on the same four parameter lists the improper builder emits exactly the
record sequence of the proper builder with the class tag changed from
proper to improper (all atom indices, periodicities, phases, force
constants and divisors identical), and both fail in exactly the same
way. -/
theorem impropers_mirror_propers (ps phs ks idv : List TorsionTable) :
    (buildImpropersRun ps phs ks idv).records =
      ((buildPropersRun ps phs ks idv).records).map retagImproper ∧
    (buildImpropersRun ps phs ks idv).error =
      (buildPropersRun ps phs ks idv).error ∧
    (∀ r ∈ (buildPropersRun ps phs ks idv).records,
      r.tclass = TorsionClass.proper) ∧
    (∀ r : OFFTorsion,
      (retagImproper r).tclass = TorsionClass.improper ∧
      (retagImproper r).atom1_idx = r.atom1_idx ∧
      (retagImproper r).atom2_idx = r.atom2_idx ∧
      (retagImproper r).atom3_idx = r.atom3_idx ∧
      (retagImproper r).atom4_idx = r.atom4_idx ∧
      (retagImproper r).periodicity = r.periodicity ∧
      (retagImproper r).phase = r.phase ∧
      (retagImproper r).k = r.k ∧
      (retagImproper r).idivf = r.idivf) := by
  refine ⟨?_, ?_, ?_, ?_⟩
  · rw [buildImpropersRun_eq_retag]
  · rw [buildImpropersRun_eq_retag]
  · intro r hr
    unfold buildPropersRun at hr
    by_cases hlen : ps.length = phs.length ∧ ps.length = ks.length ∧
        ps.length = (resolveIdivfs ps idv).length
    · rw [if_pos hlen] at hr
      obtain ⟨t, _, hrt⟩ := mem_records_buildLoopP _ r hr
      exact tclass_of_mem_buildTermRecordsP t.1 t.2.1 t.2.2.1 t.2.2.2 r hrt
    · rw [if_neg hlen] at hr
      exact absurd hr (by simp)
  · intro r
    exact ⟨rfl, rfl, rfl, rfl, rfl, rfl, rfl, rfl, rfl⟩

theorem buildOneAtom_ok (inp : AtomInputs) (usedSigmas : List (Nat × Val))
    (sasaT : List (Nat × ℚ)) (i : Nat) (a : Atom)
    (h : buildOneAtom inp usedSigmas sasaT i = Except.ok a) :
    a.index = i ∧ a.OPLS_type = none ∧ a.unknown = none ∧
    a.born_radius = none ∧ a.nonpolar_gamma = none ∧
    a.nonpolar_alpha = none ∧ a.core = none ∧ a.parent = none ∧
    List.lookup i usedSigmas = some a.sigma ∧
    List.lookup i inp.epsilons = some a.epsilon ∧
    inp.charges.get? i = some a.charge ∧
    ∃ s, List.lookup i sasaT = some s ∧ a.SASA_radius = some s := by
  unfold buildOneAtom at h
  cases hn : inp.pdbNames.get? i with
  | none => rw [hn] at h; exact absurd h (by simp)
  | some rawName =>
  rw [hn] at h
  cases hcd : inp.coords.get? i with
  | none => rw [hcd] at h; exact absurd h (by simp)
  | some c =>
  rw [hcd] at h
  cases hsg : List.lookup i usedSigmas with
  | none => rw [hsg] at h; exact absurd h (by simp)
  | some sigma =>
  rw [hsg] at h
  cases hep : List.lookup i inp.epsilons with
  | none => rw [hep] at h; exact absurd h (by simp)
  | some eps =>
  rw [hep] at h
  cases hch : inp.charges.get? i with
  | none => rw [hch] at h; exact absurd h (by simp)
  | some charge =>
  rw [hch] at h
  cases hsa : List.lookup i sasaT with
  | none => rw [hsa] at h; exact absurd h (by simp)
  | some sasa =>
  rw [hsa] at h
  injection h with ha
  subst ha
  exact ⟨rfl, rfl, rfl, rfl, rfl, rfl, rfl, rfl, rfl, rfl, rfl, sasa, rfl, rfl⟩

theorem mem_buildAtomsLoop (inp : AtomInputs) (usedSigmas : List (Nat × Val))
    (sasaT : List (Nat × ℚ)) :
    ∀ (l : List Nat) (atoms : List Atom),
      buildAtomsLoop inp usedSigmas sasaT l = Except.ok atoms →
      ∀ a ∈ atoms, ∃ i ∈ l, buildOneAtom inp usedSigmas sasaT i = Except.ok a := by
  intro l
  induction l with
  | nil =>
    intro atoms h a ha
    unfold buildAtomsLoop at h
    injection h with h2
    rw [← h2] at ha
    exact absurd ha (by simp)
  | cons i rest ih =>
    intro atoms h a ha
    unfold buildAtomsLoop at h
    cases h1 : buildOneAtom inp usedSigmas sasaT i with
    | error e => rw [h1] at h; exact absurd h (by simp)
    | ok a0 =>
    rw [h1] at h
    cases h2 : buildAtomsLoop inp usedSigmas sasaT rest with
    | error e => rw [h2] at h; exact absurd h (by simp)
    | ok l0 =>
    rw [h2] at h
    injection h with h3
    rw [← h3] at ha
    rcases List.mem_cons.mp ha with ha | ha
    · exact ⟨i, List.mem_cons_self _ _, by rw [← ha] at h1; exact h1⟩
    · obtain ⟨j, hj, hja⟩ := ih l0 h2 a ha
      exact ⟨j, List.mem_cons_of_mem _ hj, hja⟩

theorem lookup_sasaTableOf (t : List (Nat × Val)) :
    ∀ (st : List (Nat × ℚ)), sasaTableOf t = Except.ok st →
      ∀ (i : Nat) (v : Val), List.lookup i t = some v →
        ∃ s, v = some s ∧ List.lookup i st = some (s / 2) := by
  induction t with
  | nil =>
    intro st _ i v hv
    exact absurd hv (by simp [List.lookup])
  | cons kv rest ih =>
    intro st h i v hv
    obtain ⟨j, v0⟩ := kv
    cases v0 with
    | none => exact absurd h (by simp [sasaTableOf])
    | some s0 =>
    cases hrest : sasaTableOf rest with
    | error e =>
      unfold sasaTableOf at h
      rw [hrest] at h
      exact absurd h (by simp)
    | ok st0 =>
    unfold sasaTableOf at h
    rw [hrest] at h
    injection h with h2
    subst h2
    rw [List.lookup_cons] at hv
    cases hij : i == j with
    | true =>
      rw [hij] at hv
      injection hv with hv2
      refine ⟨s0, by rw [← hv2], ?_⟩
      rw [List.lookup_cons, hij]
    | false =>
      rw [hij] at hv
      obtain ⟨s, hs1, hs2⟩ := ih st0 hrest i v hv
      refine ⟨s, hs1, ?_⟩
      rw [List.lookup_cons, hij]
      exact hs2

theorem mem_buildAtoms (inp : AtomInputs) (atoms : List Atom)
    (hok : buildAtoms inp = Except.ok atoms) (a : Atom) (ha : a ∈ atoms) :
    ∃ sasaT, sasaTableOf (selectSigmas inp) = Except.ok sasaT ∧
      ∃ i ∈ inp.vdWKeys,
        buildOneAtom inp (selectSigmas inp) sasaT i = Except.ok a := by
  unfold buildAtoms at hok
  cases hs : sasaTableOf (selectSigmas inp) with
  | error e => rw [hs] at hok; exact absurd hok (by simp)
  | ok sasaT =>
  rw [hs] at hok
  exact ⟨sasaT, rfl, mem_buildAtomsLoop inp _ sasaT inp.vdWKeys atoms hok a ha⟩

/-- C4 counterexample: an input whose provider reports a sigma for atom 0
but not for atom 1.  The claimed per-atom fallback does not happen: the
rmin-half table is not selected (the selection is global and triggers only
when every sigma is missing), and atom construction never produces an atom
record whose sigma comes from the rmin-half table — it fails computing the
SASA radius of the unreported sigma. -/
theorem partial_sigma_no_fallback_cex :
    List.lookup 1 mixedAtomInputs.sigmas = some none ∧
    List.lookup 1 mixedAtomInputs.sigmasFromRminHalves = some (some 5) ∧
    selectSigmas mixedAtomInputs = mixedAtomInputs.sigmas ∧
    buildAtoms mixedAtomInputs = Except.error "unsupported operand type" ∧
    ¬∃ atoms, buildAtoms mixedAtomInputs = Except.ok atoms ∧
      ∃ a ∈ atoms, a.index = 1 ∧ a.sigma = some 5 := by
  refine ⟨rfl, rfl, rfl, rfl, ?_⟩
  rintro ⟨atoms, h, -⟩
  have h2 : buildAtoms mixedAtomInputs =
      Except.error "unsupported operand type" := rfl
  rw [h2] at h
  exact Except.noConfusion h

/-- C4 (amended): the rmin-half sigma fallback is global, not per atom:
the rmin-half-derived table replaces the sigma table exactly when every
directly reported sigma is missing, and every built atom draws its sigma
from the table so selected; the epsilon and charge of each atom come from
their own tables and are unaffected by which table supplied sigma. -/
theorem sigma_fallback_all_or_nothing (inp : AtomInputs) (atoms : List Atom)
    (hok : buildAtoms inp = Except.ok atoms) (a : Atom) (ha : a ∈ atoms) :
    List.lookup a.index (selectSigmas inp) = some a.sigma ∧
    List.lookup a.index inp.epsilons = some a.epsilon ∧
    inp.charges.get? a.index = some a.charge ∧
    (inp.sigmas.all (fun kv => kv.2.isNone) = true →
      selectSigmas inp = inp.sigmasFromRminHalves) ∧
    (inp.sigmas.all (fun kv => kv.2.isNone) = false →
      selectSigmas inp = inp.sigmas) := by
  obtain ⟨sasaT, _, i, _, hone⟩ := mem_buildAtoms inp atoms hok a ha
  obtain ⟨hidx, _, _, _, _, _, _, _, hsg, hep, hch, _⟩ :=
    buildOneAtom_ok inp _ sasaT i a hone
  subst hidx
  refine ⟨hsg, hep, hch, ?_, ?_⟩
  · intro hall
    unfold selectSigmas
    rw [if_pos hall]
  · intro hall
    unfold selectSigmas
    rw [if_neg (by rw [hall]; exact Bool.false_ne_true)]

/-- Witness for C4 (amended) at `okAtomInputs`, whose sigma table reports
a sigma directly. -/
theorem sigma_fallback_all_or_nothing_witness :
    List.lookup okAtomExpected.index (selectSigmas okAtomInputs) =
      some okAtomExpected.sigma ∧
    List.lookup okAtomExpected.index okAtomInputs.epsilons =
      some okAtomExpected.epsilon ∧
    okAtomInputs.charges.get? okAtomExpected.index =
      some okAtomExpected.charge ∧
    (okAtomInputs.sigmas.all (fun kv => kv.2.isNone) = true →
      selectSigmas okAtomInputs = okAtomInputs.sigmasFromRminHalves) ∧
    (okAtomInputs.sigmas.all (fun kv => kv.2.isNone) = false →
      selectSigmas okAtomInputs = okAtomInputs.sigmas) :=
  sigma_fallback_all_or_nothing okAtomInputs [okAtomExpected] rfl
    okAtomExpected (by simp)

/-- C5: every atom built by the topology builder has its OPLS-style type
tag, Born radius and nonpolar gamma/alpha set to the explicit unassigned
sentinel `None`, which is distinct from every numeric value and in
particular from zero. -/
theorem unassigned_fields_are_sentinel (inp : AtomInputs) (atoms : List Atom)
    (hok : buildAtoms inp = Except.ok atoms) (a : Atom) (ha : a ∈ atoms) :
    a.OPLS_type = none ∧ a.born_radius = none ∧ a.nonpolar_gamma = none ∧
    a.nonpolar_alpha = none ∧
    ∀ q : ℚ, a.OPLS_type ≠ some q ∧ a.born_radius ≠ some q ∧
      a.nonpolar_gamma ≠ some q ∧ a.nonpolar_alpha ≠ some q := by
  obtain ⟨sasaT, _, i, _, hone⟩ := mem_buildAtoms inp atoms hok a ha
  obtain ⟨_, h1, _, h2, h3, h4, _⟩ := buildOneAtom_ok inp _ sasaT i a hone
  refine ⟨h1, h2, h3, h4, ?_⟩
  intro q
  rw [h1, h2, h3, h4]
  exact ⟨Option.noConfusion, Option.noConfusion, Option.noConfusion,
    Option.noConfusion⟩

/-- Witness for C5 at `okAtomInputs`. -/
theorem unassigned_fields_are_sentinel_witness :
    okAtomExpected.OPLS_type = none ∧ okAtomExpected.born_radius = none ∧
    okAtomExpected.nonpolar_gamma = none ∧
    okAtomExpected.nonpolar_alpha = none ∧
    ∀ q : ℚ, okAtomExpected.OPLS_type ≠ some q ∧
      okAtomExpected.born_radius ≠ some q ∧
      okAtomExpected.nonpolar_gamma ≠ some q ∧
      okAtomExpected.nonpolar_alpha ≠ some q :=
  unassigned_fields_are_sentinel okAtomInputs [okAtomExpected] rfl
    okAtomExpected (by simp)

/-- C6: every atom built by the topology builder has a SASA radius equal
to exactly half of the sigma actually used for that atom (the selected
sigma, whether reported directly or derived from rmin-half). -/
theorem sasa_radius_is_half_sigma (inp : AtomInputs) (atoms : List Atom)
    (hok : buildAtoms inp = Except.ok atoms) (a : Atom) (ha : a ∈ atoms) :
    ∃ s, a.sigma = some s ∧ a.SASA_radius = some (s / 2) ∧
      List.lookup a.index (selectSigmas inp) = some a.sigma := by
  obtain ⟨sasaT, hsasa, i, _, hone⟩ := mem_buildAtoms inp atoms hok a ha
  obtain ⟨hidx, _, _, _, _, _, _, _, hsg, _, _, s0, hs0, hrad⟩ :=
    buildOneAtom_ok inp _ sasaT i a hone
  obtain ⟨s, hs1, hs2⟩ :=
    lookup_sasaTableOf (selectSigmas inp) sasaT hsasa i a.sigma hsg
  rw [hs0] at hs2
  injection hs2 with hs3
  subst hidx
  exact ⟨s, hs1, by rw [hrad, hs3], hsg⟩

/-- Witness for C6 at `okAtomInputs`: sigma 2, SASA radius 1. -/
theorem sasa_radius_is_half_sigma_witness :
    ∃ s, okAtomExpected.sigma = some s ∧
      okAtomExpected.SASA_radius = some (s / 2) ∧
      List.lookup okAtomExpected.index (selectSigmas okAtomInputs) =
        some okAtomExpected.sigma :=
  sasa_radius_is_half_sigma okAtomInputs [okAtomExpected] rfl
    okAtomExpected (by simp)

/-- C8: each of the atom mutators `set_as_core`, `set_as_branch` and
`set_parent` changes only its own field — the core flag for the first two,
the parent reference for the third — and leaves the atom index, name,
coordinates and all nonbonded and implicit-solvent parameters unchanged. -/
theorem atom_setters_frame (a : Atom) (p : Option Nat) :
    (a.set_as_core.core = some true ∧ a.set_as_core.index = a.index ∧
     a.set_as_core.OPLS_type = a.OPLS_type ∧
     a.set_as_core.PDB_name = a.PDB_name ∧
     a.set_as_core.unknown = a.unknown ∧ a.set_as_core.x = a.x ∧
     a.set_as_core.y = a.y ∧ a.set_as_core.z = a.z ∧
     a.set_as_core.sigma = a.sigma ∧ a.set_as_core.epsilon = a.epsilon ∧
     a.set_as_core.charge = a.charge ∧
     a.set_as_core.born_radius = a.born_radius ∧
     a.set_as_core.SASA_radius = a.SASA_radius ∧
     a.set_as_core.nonpolar_gamma = a.nonpolar_gamma ∧
     a.set_as_core.nonpolar_alpha = a.nonpolar_alpha ∧
     a.set_as_core.parent = a.parent) ∧
    (a.set_as_branch.core = some false ∧ a.set_as_branch.index = a.index ∧
     a.set_as_branch.OPLS_type = a.OPLS_type ∧
     a.set_as_branch.PDB_name = a.PDB_name ∧
     a.set_as_branch.unknown = a.unknown ∧ a.set_as_branch.x = a.x ∧
     a.set_as_branch.y = a.y ∧ a.set_as_branch.z = a.z ∧
     a.set_as_branch.sigma = a.sigma ∧ a.set_as_branch.epsilon = a.epsilon ∧
     a.set_as_branch.charge = a.charge ∧
     a.set_as_branch.born_radius = a.born_radius ∧
     a.set_as_branch.SASA_radius = a.SASA_radius ∧
     a.set_as_branch.nonpolar_gamma = a.nonpolar_gamma ∧
     a.set_as_branch.nonpolar_alpha = a.nonpolar_alpha ∧
     a.set_as_branch.parent = a.parent) ∧
    ((a.set_parent p).parent = p ∧ (a.set_parent p).core = a.core ∧
     (a.set_parent p).index = a.index ∧
     (a.set_parent p).OPLS_type = a.OPLS_type ∧
     (a.set_parent p).PDB_name = a.PDB_name ∧
     (a.set_parent p).unknown = a.unknown ∧ (a.set_parent p).x = a.x ∧
     (a.set_parent p).y = a.y ∧ (a.set_parent p).z = a.z ∧
     (a.set_parent p).sigma = a.sigma ∧
     (a.set_parent p).epsilon = a.epsilon ∧
     (a.set_parent p).charge = a.charge ∧
     (a.set_parent p).born_radius = a.born_radius ∧
     (a.set_parent p).SASA_radius = a.SASA_radius ∧
     (a.set_parent p).nonpolar_gamma = a.nonpolar_gamma ∧
     (a.set_parent p).nonpolar_alpha = a.nonpolar_alpha) := by
  simp [Atom.set_as_core, Atom.set_as_branch, Atom.set_parent]

/-- C9: on a molecule whose underlying force-field molecule is unset,
`build_rotamer_library` raises `Molecule not parameterized` and leaves the
molecule state — in particular the rotamer-library slot — unchanged, and
`get_pdb_atom_names` raises the same error. -/
theorem unparameterized_molecule_errors
    (mkLib : MoleculeState → ℚ → RotamerLibrary) (m : MoleculeState)
    (resolution : ℚ) (h : m.off_molecule = none) :
    build_rotamer_library mkLib m resolution =
      (m, some "Molecule not parameterized") ∧
    (build_rotamer_library mkLib m resolution).1.rotamer_library =
      m.rotamer_library ∧
    get_pdb_atom_names m = Except.error "Molecule not parameterized" := by
  have hassert : m.assert_parameterized =
      Except.error "Molecule not parameterized" := by
    unfold MoleculeState.assert_parameterized
    rw [h]
    rfl
  unfold build_rotamer_library get_pdb_atom_names
  rw [hassert]
  exact ⟨rfl, rfl, rfl⟩

/-- Witness for C9 at a concrete unparameterized molecule state. -/
theorem unparameterized_molecule_errors_witness :
    build_rotamer_library (fun _ _ => []) unparamMolecule 30 =
      (unparamMolecule, some "Molecule not parameterized") ∧
    (build_rotamer_library (fun _ _ => []) unparamMolecule 30).1.rotamer_library =
      unparamMolecule.rotamer_library ∧
    get_pdb_atom_names unparamMolecule =
      Except.error "Molecule not parameterized" :=
  unparameterized_molecule_errors (fun _ _ => []) unparamMolecule 30 rfl

/-- C10: the OBC1 and OBC2 wrappers load their parameters from the same
force-field data file, so for the same molecule they produce identical
radii, scales, dielectrics, solvent radius and surface-area penalty,
differing only in the reported name and in OBC1 additionally emitting the
not-implemented warning. -/
theorem obc1_obc2_same_parameters (get_data_file_path : String → String)
    (tk : OFFToolkit) (mol : Nat) :
    OBC1_ff_file get_data_file_path = OBC2_ff_file get_data_file_path ∧
    (mkOBC1 get_data_file_path tk mol).1.radii =
      (mkOBC2 get_data_file_path tk mol).1.radii ∧
    (mkOBC1 get_data_file_path tk mol).1.scales =
      (mkOBC2 get_data_file_path tk mol).1.scales ∧
    (mkOBC1 get_data_file_path tk mol).1.solvent_dielectric =
      (mkOBC2 get_data_file_path tk mol).1.solvent_dielectric ∧
    (mkOBC1 get_data_file_path tk mol).1.solute_dielectric =
      (mkOBC2 get_data_file_path tk mol).1.solute_dielectric ∧
    (mkOBC1 get_data_file_path tk mol).1.surface_area_penalty =
      (mkOBC2 get_data_file_path tk mol).1.surface_area_penalty ∧
    (mkOBC1 get_data_file_path tk mol).1.solvent_radius =
      (mkOBC2 get_data_file_path tk mol).1.solvent_radius ∧
    (mkOBC1 get_data_file_path tk mol).1.name = "OBC1" ∧
    (mkOBC2 get_data_file_path tk mol).1.name = "OBC2" ∧
    (mkOBC1 get_data_file_path tk mol).2 =
      ["OBC1 is not implemented in PELE"] ∧
    (mkOBC2 get_data_file_path tk mol).2 = [] :=
  ⟨rfl, rfl, rfl, rfl, rfl, rfl, rfl, rfl, rfl, rfl, rfl⟩

end OffPELE
